import Mathlib

/-!
Verification of the mapping and event-gating engine of `midimaker.py`
(class `MidiController`).

Python floats are modelled as rationals (`ℚ`); every arithmetic operation
appearing in the source is exact on the inputs considered here, so the
rational model agrees with IEEE evaluation on them.  Python `int()` applied
to a float truncates toward zero; `math.floor` is `Int.floor`; `%` on Python
integers with a positive modulus is `Int.emod`.  Fallible parsing is
modelled with explicit outcome types.
-/

/-- Truncation toward zero: the behaviour of Python `int()` on a float. -/
def pyInt (q : ℚ) : ℤ := if q < 0 then ⌈q⌉ else ⌊q⌋

/-- Scale pattern `MAJOR_SCALE` (line 12). -/
def MAJOR_SCALE : List ℤ := [0, 2, 4, 5, 7, 9, 11, 12]

/-- Scale pattern `MINOR_SCALE` (line 13). -/
def MINOR_SCALE : List ℤ := [0, 2, 3, 5, 7, 8, 10, 12]

/-- Scale pattern `PENTATONIC_SCALE` (line 14). -/
def PENTATONIC_SCALE : List ℤ := [0, 2, 4, 7, 9, 12, 14, 16]

/-- Scale pattern `BLUES_SCALE` (line 15). -/
def BLUES_SCALE : List ℤ := [0, 3, 5, 6, 7, 10, 12, 15]

/-- Embedding of `MidiController.cents_to_midi_note` (lines 101-111): `semitones = cents / 100.0`;
`whole_semitones = int(math.floor(semitones))`; `remaining_cents =
(semitones - whole_semitones) * 100`; `midi_note = 60 +
self.MAJOR_SCALE[whole_semitones % 8]`.  The list index is always in range
because Python `% 8` on an int is non-negative, i.e. `Int.emod`. -/
def cents_to_midi_note (cents : ℚ) : ℤ × ℚ :=
  let semitones : ℚ := cents / 100
  let whole_semitones : ℤ := ⌊semitones⌋
  let remaining_cents : ℚ := (semitones - (whole_semitones : ℚ)) * 100
  let midi_note : ℤ := 60 + MAJOR_SCALE.getD (whole_semitones % 8).toNat 0
  (midi_note, remaining_cents)

/-- Embedding of `MidiController.cents_to_pitch_bend` (lines 113-117): `normalized =
(cents / 100.0) / 2.0`; `pitch_bend = int(8192 + (normalized * 8192))`;
`return max(0, min(16383, pitch_bend))`. -/
def cents_to_pitch_bend (cents : ℚ) : ℤ :=
  let normalized : ℚ := cents / 100 / 2
  let pitch_bend : ℤ := pyInt (8192 + normalized * 8192)
  max 0 (min 16383 pitch_bend)

/-- A MIDI-style message as sent by the controller.  The source passes
`self.midi_channel + 1` as the channel argument of every message it builds. -/
inductive MidiEvent where
  | noteOn (channel note velocity : ℤ)
  | noteOff (channel note : ℤ)
  | pitchBend (channel value : ℤ)
deriving DecidableEq, Repr

/-- Recognizes NoteOff messages. -/
def MidiEvent.isNoteOff : MidiEvent → Bool
  | .noteOff _ _ => true
  | _ => false

/-- Recognizes NoteOn messages. -/
def MidiEvent.isNoteOn : MidiEvent → Bool
  | .noteOn _ _ _ => true
  | _ => false

/-- Holds when every NoteOff in the list is immediately followed by a NoteOn. -/
def offsFollowedByOn : List MidiEvent → Bool
  | [] => true
  | MidiEvent.noteOff _ _ :: rest =>
    match rest with
    | MidiEvent.noteOn _ _ _ :: _ => offsFollowedByOn rest
    | _ => false
  | _ :: rest => offsFollowedByOn rest

/-- The mutable attributes of a `MidiController` instance that the decision
logic reads or writes; the MIDI/serial port handles are I/O and out of
scope. -/
structure ControllerState where
  current_octave : ℤ
  current_scale : List ℤ
  last_note : Option ℤ
  powered : Bool
  show_guide : Bool
  last_vel_note : Option ℤ
  velocity : ℤ
  midi_channel : ℤ
  current_cents : ℚ
  current_volume : ℚ
  current_midi_value : Option ℤ
  current_velocity : Option ℤ
deriving Repr

/-- Embedding of `MidiController.__init__` (lines 17-44), restricted to the state fields.
The attributes `current_midi_value` and `current_velocity` are not created in
`__init__` (they are first assigned inside `process_serial_data`), modelled
as `none`. -/
def initController (midi_channel : ℤ) : ControllerState :=
  { current_octave := 4
    current_scale := MAJOR_SCALE
    last_note := none
    powered := true
    show_guide := false
    last_vel_note := none
    velocity := 0
    midi_channel := midi_channel
    current_cents := 0
    current_volume := 0
    current_midi_value := none
    current_velocity := none }

/-- Line 66: `velocity = int(max(0, min(127, self.current_volume * 127)))`. -/
def computed_velocity (s : ControllerState) : ℤ :=
  pyInt (max 0 (min 127 (s.current_volume * 127)))

/-- Embedding of `MidiController.send_midi_messages` (lines 58-99) as a pure transition:
it returns the list of messages sent, in order, together with the updated
state.  In the re-trigger branch the source sends `noteOff(self.last_note)`;
that branch is only reached when `self.last_note == note`, so the off is
written on `note`. -/
def send_midi_messages (s : ControllerState) : List MidiEvent × ControllerState :=
  if s.powered = false then ([], s)
  else
    let note : ℤ := (cents_to_midi_note s.current_cents).1
    let remaining_cents : ℚ := (cents_to_midi_note s.current_cents).2
    let pitch_bend : ℤ := cents_to_pitch_bend remaining_cents
    let velocity : ℤ := computed_velocity s
    let ch : ℤ := s.midi_channel + 1
    let pbMsg : MidiEvent := MidiEvent.pitchBend ch pitch_bend
    if s.last_note ≠ some note then
      let offMsgs : List MidiEvent :=
        match s.last_note with
        | some prev => [MidiEvent.noteOff ch prev]
        | none => []
      (pbMsg :: offMsgs ++ [MidiEvent.noteOn ch note velocity],
        { s with last_note := some note, last_vel_note := some velocity })
    else
      match s.last_vel_note with
      | some lvn =>
        if 31 ≤ (lvn - velocity).natAbs then
          ([pbMsg, MidiEvent.noteOff ch note, MidiEvent.noteOn ch note velocity],
            { s with last_note := some note, last_vel_note := some velocity })
        else
          ([pbMsg], { s with last_note := some note, last_vel_note := some velocity })
      | none => ([pbMsg], { s with last_note := some note, last_vel_note := some velocity })

/-- Modelled from the spec: `process_serial_data` calls `self.power_off()` at
line 186, but no `power_off` method is defined in the file under `src/`; only
this call site is present.  Per spec §4.4/§4.5, power-off forces an immediate
Sounding → Silent transition with NoteOff emission regardless of dead-zone
state, then disables all further processing until re-enabled. -/
def power_off (s : ControllerState) : List MidiEvent × ControllerState :=
  match s.last_note with
  | some n =>
    ([MidiEvent.noteOff (s.midi_channel + 1) n],
      { s with last_note := none, last_vel_note := none, powered := false })
  | none => ([], { s with powered := false })

/-- The local loop variables of `process_serial_data` (lines 128-129) together
with the controller state. -/
structure LoopState where
  ctrl : ControllerState
  last_valid_midi : Option ℤ
  last_valid_velocity : Option ℤ
deriving Repr

/-- Constant `VELOCITY_THRESHOLD = 5` (line 130). -/
def VELOCITY_THRESHOLD : ℕ := 5

/-- The `should_send` flag computed at lines 151-159: send when the note
changed, or when a previous velocity exists and the velocity change is at
least `VELOCITY_THRESHOLD`. -/
def shouldSend (s : LoopState) (midi_value velocity : ℤ) : Bool :=
  if some midi_value ≠ s.last_valid_midi then true
  else
    match s.last_valid_velocity with
    | some lv => decide (VELOCITY_THRESHOLD ≤ (velocity - lv).natAbs)
    | none => false

/-- The two attribute assignments of lines 162-163, performed before the send:
`self.current_midi_value = midi_value`; `self.current_velocity = velocity`. -/
def updatedCtrl (s : LoopState) (midi_value velocity : ℤ) : ControllerState :=
  { s.ctrl with
    current_midi_value := some midi_value
    current_velocity := some velocity }

/-- One iteration of the body of `process_serial_data` (lines 144-173) on an
already parsed `(midi, velocity)` pair: clamp both to [0, 127]; if
`should_send`, store them into `current_midi_value` / `current_velocity`,
call `send_midi_messages`, and update the `last_valid_*` locals; otherwise do
nothing. -/
def loop_step (s : LoopState) (midiRaw velRaw : ℤ) : List MidiEvent × LoopState :=
  let midi_value : ℤ := max 0 (min 127 midiRaw)
  let velocity : ℤ := max 0 (min 127 velRaw)
  if shouldSend s midi_value velocity then
    ((send_midi_messages (updatedCtrl s midi_value velocity)).1,
      { ctrl := (send_midi_messages (updatedCtrl s midi_value velocity)).2
        last_valid_midi := some midi_value
        last_valid_velocity := some velocity })
  else ([], s)

/-- A powered state holding note 60 at stored velocity 0, with zero cents and
zero volume: a sample lying below any positive dead-zone threshold. -/
def c1State : ControllerState :=
  { initController 0 with last_note := some 60, last_vel_note := some 0 }

/-- A powered state holding note 60 at stored velocity 100, with zero cents
and zero volume, so the freshly computed velocity 0 differs by 100 ≥ 31. -/
def c5State : ControllerState :=
  { initController 0 with last_note := some 60, last_vel_note := some 100 }

/-- A powered state holding note 60 at stored velocity 90, as in the
power-off scenario of the spec. -/
def c7State : ControllerState :=
  { initController 0 with last_note := some 60, last_vel_note := some 90 }

/-- The full loop state right after `__init__`: both `last_valid_*` locals
are `None`. -/
def initLoopState : LoopState :=
  { ctrl := initController 0
    last_valid_midi := none
    last_valid_velocity := none }

/-- The controller state passed to `send_midi_messages` on the first sample
`(60, 90)` of a fresh session: `current_midi_value` and `current_velocity`
have just been assigned, everything else is as in `__init__`. -/
def c9Ctrl : ControllerState :=
  { initController 0 with current_midi_value := some 60, current_velocity := some 90 }

/-- A loop state whose controller is powered off, as left behind by
`power_off` from the sounding state `c7State`. -/
def offLoopState : LoopState :=
  { ctrl := (power_off c7State).2
    last_valid_midi := none
    last_valid_velocity := none }

/-- A loop state whose controller already holds a sounding note. -/
def c10LoopState : LoopState :=
  { ctrl := c1State
    last_valid_midi := some 60
    last_valid_velocity := some 0 }

/-- Membership in the CSI parameter byte class `[0-?]` of the ANSI regex at
line 121. -/
def isCsiParam (c : Char) : Bool := 0x30 ≤ c.toNat && c.toNat ≤ 0x3F

/-- Membership in the CSI intermediate byte class, space (0x20) to slash
(0x2F). -/
def isCsiInter (c : Char) : Bool := 0x20 ≤ c.toNat && c.toNat ≤ 0x2F

/-- Membership in the CSI final byte class `[@-~]`. -/
def isCsiFinal (c : Char) : Bool := 0x40 ≤ c.toNat && c.toNat ≤ 0x7E

/-- Membership in the two-character escape class `[@-Z\\-_]`: `@` to `Z`
(0x40-0x5A) or backslash to underscore (0x5C-0x5F). -/
def isEscFollower (c : Char) : Bool :=
  (0x40 ≤ c.toNat && c.toNat ≤ 0x5A) || (0x5C ≤ c.toNat && c.toNat ≤ 0x5F)

/-- Consumes a CSI body after `ESC [`: any parameter bytes, then any
intermediate bytes, then one final byte of class `[@-~]`, returning the
remainder on success. -/
def dropCsi (cs : List Char) : Option (List Char) :=
  match (cs.dropWhile isCsiParam).dropWhile isCsiInter with
  | c :: rest => if isCsiFinal c then some rest else none
  | [] => none

/-- Fuelled scanner for the ANSI-escape regex at line 121 — ESC followed by
either one byte of class `[@-Z\\-_]`, or by a bracket and a CSI body — with
the substitution semantics of `re.sub`: at each position a match is removed,
otherwise the character is kept and scanning resumes at the next position.
The fuel only needs to cover the input length, since every step consumes at
least one character. -/
def stripAnsiAux : ℕ → List Char → List Char
  | 0, cs => cs
  | _ + 1, [] => []
  | fuel + 1, c :: rest =>
    if c = Char.ofNat 0x1B then
      match rest with
      | d :: rest2 =>
        if isEscFollower d then stripAnsiAux fuel rest2
        else if d = '[' then
          match dropCsi rest2 with
          | some rest3 => stripAnsiAux fuel rest3
          | none => c :: stripAnsiAux fuel rest
        else c :: stripAnsiAux fuel rest
      | [] => [c]
    else c :: stripAnsiAux fuel rest

/-- Embedding of `MidiController.strip_ansi_codes` (lines 119-122). -/
def strip_ansi_codes (text : String) : String :=
  String.mk (stripAnsiAux text.data.length text.data)

/-- Fuelled removal of every non-overlapping, leftmost-first occurrence of
`pat`: the behaviour of Python `str.replace(pat, "")`. -/
def removeAll (pat : List Char) : ℕ → List Char → List Char
  | 0, cs => cs
  | _ + 1, [] => []
  | fuel + 1, c :: rest =>
    if (c :: rest).take pat.length = pat then
      removeAll pat fuel ((c :: rest).drop pat.length)
    else c :: removeAll pat fuel rest

/-- Removal of all occurrences of a pattern from a string. -/
def pyReplaceRemove (pat : List Char) (cs : List Char) : List Char :=
  removeAll pat cs.length cs

/-- Line 138: `data = raw_data.replace("0134", "").replace("134", "")`. -/
def removeNoise (raw : String) : String :=
  String.mk (pyReplaceRemove ("134".data) (pyReplaceRemove ("0134".data) raw.data))

/-- Lines 138-139: noise-prefix removal followed by ANSI stripping. -/
def cleanLine (raw : String) : String := strip_ansi_codes (removeNoise raw)

/-- ASCII whitespace as recognized by Python `str.split()`; the serial
payload is ASCII text. -/
def pyIsSpace (c : Char) : Bool :=
  c = ' ' || c = Char.ofNat 0x09 || c = Char.ofNat 0x0A || c = Char.ofNat 0x0D ||
    c = Char.ofNat 0x0B || c = Char.ofNat 0x0C

/-- Splitting on whitespace runs, dropping empty tokens: the behaviour of
`data.split()` at line 142; `acc` holds the current token reversed. -/
def splitWsAux : List Char → List Char → List String
  | acc, [] => if acc = [] then [] else [String.mk acc.reverse]
  | acc, c :: rest =>
    if pyIsSpace c then
      if acc = [] then splitWsAux [] rest
      else String.mk acc.reverse :: splitWsAux [] rest
    else splitWsAux (c :: acc) rest

/-- Line 142: `parts = data.split()`. -/
def tokensOf (data : String) : List String := splitWsAux [] data.data

/-- Value classes of Python `float()`: a finite rational, an infinity, or
NaN. The sign of non-finite values is irrelevant downstream. -/
inductive PyFloat where
  | fin (q : ℚ)
  | inf
  | nan
deriving Repr

/-- Fuelled digit-run consumer for Python numeric literals: consumes
`d (_? d)*` (single underscores allowed between digits), returning the
digits read and the remainder. -/
def digitRunAux : ℕ → List Char → List Char × List Char
  | 0, cs => ([], cs)
  | _ + 1, [] => ([], [])
  | fuel + 1, c :: rest =>
    if c.isDigit then
      ((digitRunAux fuel rest).1.cons c, (digitRunAux fuel rest).2)
    else if c = '_' then
      match rest with
      | d :: rest2 =>
        if d.isDigit then
          ((digitRunAux fuel rest2).1.cons d, (digitRunAux fuel rest2).2)
        else ([], c :: rest)
      | [] => ([], [c])
    else ([], c :: rest)

/-- A digit part of a Python float literal: at least one digit, with
optional single underscores between digits. -/
def parseDigitPart (cs : List Char) : Option (List Char × List Char) :=
  match cs with
  | c :: _ => if c.isDigit then some (digitRunAux cs.length cs) else none
  | [] => none

/-- Decimal value of a digit list. -/
def digitsToNat (ds : List Char) : ℕ :=
  ds.foldl (fun a c => a * 10 + (c.toNat - 48)) 0

/-- Parsing with the grammar of Python `float()` restricted to decimal
literals — optional sign, integer part, optional fraction, optional
exponent, each digit part allowing medial underscores — plus the
case-insensitive special tokens inf, infinity and nan.  Returns `none` for
any other token, which makes `float()` raise ValueError. -/
def pyFloatParse (s : String) : Option PyFloat :=
  let signAndBody : Bool × List Char :=
    match s.data with
    | '+' :: r => (false, r)
    | '-' :: r => (true, r)
    | r => (false, r)
  let neg := signAndBody.1
  let body := signAndBody.2
  let lower := String.mk (body.map Char.toLower)
  if lower = "inf" || lower = "infinity" then some PyFloat.inf
  else if lower = "nan" then some PyFloat.nan
  else
    let intPart : Option (List Char × List Char) :=
      match body with
      | '.' :: _ => some ([], body)
      | _ => parseDigitPart body
    match intPart with
    | none => none
    | some (intDs, rest1) =>
      let fracPart : Option (List Char × List Char) :=
        match rest1 with
        | '.' :: r2 =>
          match r2 with
          | c :: _ =>
            if c.isDigit then parseDigitPart r2
            else if intDs = [] then none else some ([], r2)
          | [] => if intDs = [] then none else some ([], [])
        | _ => if intDs = [] then none else some ([], rest1)
      match fracPart with
      | none => none
      | some (fracDs, rest2) =>
        let expPart : Option (ℤ × List Char) :=
          match rest2 with
          | e :: r3 =>
            if e = 'e' || e = 'E' then
              let expSignAndBody : Bool × List Char :=
                match r3 with
                | '+' :: r4 => (false, r4)
                | '-' :: r4 => (true, r4)
                | r4 => (false, r4)
              match parseDigitPart expSignAndBody.2 with
              | some (eds, r5) =>
                some (if expSignAndBody.1 then -(digitsToNat eds : ℤ)
                      else (digitsToNat eds : ℤ), r5)
              | none => none
            else some (0, rest2)
          | [] => some (0, [])
        match expPart with
        | none => none
        | some (ev, rest3) =>
          if rest3 = [] then
            let mant : ℚ :=
              (digitsToNat intDs : ℚ) + (digitsToNat fracDs : ℚ) / (10 : ℚ) ^ fracDs.length
            let value : ℚ := mant * (10 : ℚ) ^ ev
            some (PyFloat.fin (if neg then -value else value))
          else none

/-- Outcome of one raw line inside the read loop (lines 134-179). -/
inductive LineOutcome where
  | noSample
  | parseError
  | overflowAbort
  | sample (midi velocity : ℤ)
deriving DecidableEq, Repr

/-- Lines 136-179 on one decoded, stripped, non-empty line: remove noise
prefixes and ANSI codes, split on whitespace; with fewer than two tokens
nothing happens at all (no diagnostic, lines 143 and 147 onward are
skipped); otherwise `int(float(token))` is applied to the first two tokens:
an invalid literal or NaN raises ValueError, caught and printed at lines
175-179; an infinite value makes `int()` raise OverflowError, which no
handler in `process_serial_data` catches. -/
def process_line (raw : String) : LineOutcome :=
  let parts := tokensOf (cleanLine raw)
  if 2 ≤ parts.length then
    match pyFloatParse (parts.getD 0 ""), pyFloatParse (parts.getD 1 "") with
    | some (PyFloat.fin q0), some (PyFloat.fin q1) =>
      LineOutcome.sample (pyInt q0) (pyInt q1)
    | some PyFloat.inf, _ => LineOutcome.overflowAbort
    | some (PyFloat.fin _), some PyFloat.inf => LineOutcome.overflowAbort
    | _, _ => LineOutcome.parseError
  else LineOutcome.noSample

/-- The observable effect of one loop iteration on a raw line: either the
loop continues — with a flag recording whether the parse diagnostic of line
176 was printed, the events sent, and the new state — or an uncaught
exception aborts the session. -/
inductive StepResult where
  | cont (diagnostic : Bool) (events : List MidiEvent) (s : LoopState)
  | aborted
deriving Repr

/-- Dispatch of one raw line (lines 134-179): token-short lines fall through
silently, parse failures print a diagnostic and continue, overflow
propagates, and parsed samples run `loop_step`. -/
def loop_line (s : LoopState) (raw : String) : StepResult :=
  match process_line raw with
  | LineOutcome.noSample => StepResult.cont false [] s
  | LineOutcome.parseError => StepResult.cont true [] s
  | LineOutcome.overflowAbort => StepResult.aborted
  | LineOutcome.sample m v =>
    StepResult.cont false (loop_step s m v).1 (loop_step s m v).2

/-- Claim C2 (counterexample): the claim asserts `cents_to_pitch_bend 50 = 16383`
and `cents_to_pitch_bend (-50) = 0`; in fact the code returns 10240 and 6144
respectively, which refutes the claim at the concrete inputs +50 and -50. -/
theorem C2_counterexample :
    cents_to_pitch_bend 50 = 10240 ∧ (10240 : ℤ) ≠ 16383 ∧
    cents_to_pitch_bend (-50) = 6144 ∧ (6144 : ℤ) ≠ 0 := by
  refine ⟨?_, by decide, ?_, by decide⟩ <;>
    · unfold cents_to_pitch_bend pyInt
      norm_num

/-- Claim C2 (amended): the conversion is linear with full-scale deflection at
±200 cents, not ±50: input 0 returns the centre 8192, input +50 returns 10240,
input -50 returns 6144, and the extremes 16383 and 0 are attained at +200 and
-200 cents (after clamping). -/
theorem C2_amended :
    cents_to_pitch_bend 0 = 8192 ∧
    cents_to_pitch_bend 50 = 10240 ∧
    cents_to_pitch_bend (-50) = 6144 ∧
    cents_to_pitch_bend 200 = 16383 ∧
    cents_to_pitch_bend (-200) = 0 := by
  refine ⟨?_, ?_, ?_, ?_, ?_⟩ <;>
    · unfold cents_to_pitch_bend pyInt
      norm_num

/-- Claim C3 (counterexample): the claim asserts every offset of every defined
scale is at most 12; `PENTATONIC_SCALE` contains 14 and `BLUES_SCALE`
contains 15. -/
theorem C3_counterexample :
    (14 : ℤ) ∈ PENTATONIC_SCALE ∧ ¬((14 : ℤ) ≤ 12) ∧
    (15 : ℤ) ∈ BLUES_SCALE ∧ ¬((15 : ℤ) ≤ 12) := by decide

/-- Claim C3 (amended): every defined scale has exactly 8 entries, starts with
offset 0 at index 0, and is monotonically non-decreasing, but only
`MAJOR_SCALE` and `MINOR_SCALE` stay within one octave (≤ 12);
`PENTATONIC_SCALE` reaches 16 and `BLUES_SCALE` reaches 15, so all offsets lie
in [0, 16] rather than [0, 12]. -/
theorem C3_amended :
    (MAJOR_SCALE.length = 8 ∧ MAJOR_SCALE.getD 0 0 = 0 ∧
      MAJOR_SCALE.Chain' (· ≤ ·) ∧ ∀ x ∈ MAJOR_SCALE, 0 ≤ x ∧ x ≤ 12) ∧
    (MINOR_SCALE.length = 8 ∧ MINOR_SCALE.getD 0 0 = 0 ∧
      MINOR_SCALE.Chain' (· ≤ ·) ∧ ∀ x ∈ MINOR_SCALE, 0 ≤ x ∧ x ≤ 12) ∧
    (PENTATONIC_SCALE.length = 8 ∧ PENTATONIC_SCALE.getD 0 0 = 0 ∧
      PENTATONIC_SCALE.Chain' (· ≤ ·) ∧ ∀ x ∈ PENTATONIC_SCALE, 0 ≤ x ∧ x ≤ 16) ∧
    (BLUES_SCALE.length = 8 ∧ BLUES_SCALE.getD 0 0 = 0 ∧
      BLUES_SCALE.Chain' (· ≤ ·) ∧ ∀ x ∈ BLUES_SCALE, 0 ≤ x ∧ x ≤ 16) ∧
    (16 : ℤ) ∈ PENTATONIC_SCALE ∧ (15 : ℤ) ∈ BLUES_SCALE := by
  refine ⟨⟨by decide, by decide, by norm_num [MAJOR_SCALE, List.chain'_cons], ?_⟩,
    ⟨by decide, by decide, by norm_num [MINOR_SCALE, List.chain'_cons], ?_⟩,
    ⟨by decide, by decide, by norm_num [PENTATONIC_SCALE, List.chain'_cons], ?_⟩,
    ⟨by decide, by decide, by norm_num [BLUES_SCALE, List.chain'_cons], ?_⟩,
    by decide, by decide⟩ <;>
    · intro x hx
      fin_cases hx <;> decide

/-- Claim C4 (counterexample): the claim asserts cents are first clamped to
[-1200, 1200], so inputs 1300 and 1200 would have to yield the same note; the
code applies no clamp and returns note 69 at 1300 but note 67 at 1200. -/
theorem C4_counterexample :
    (cents_to_midi_note 1300).1 = 69 ∧ (cents_to_midi_note 1200).1 = 67 ∧
    (cents_to_midi_note 1300).1 ≠ (cents_to_midi_note 1200).1 := by
  refine ⟨?_, ?_, ?_⟩ <;>
    · unfold cents_to_midi_note
      norm_num [MAJOR_SCALE]
      decide

/-- Claim C4 (amended): no clamping is applied to the cents input; for every
cents value the note equals `60 + MAJOR_SCALE[⌊cents/100⌋ mod 8]` — the fixed
major scale, independent of the active scale of the session, with the index taken
as the floor (not the toward-zero integer part) reduced by a non-negative
mod 8 — the remainder `(cents/100 − ⌊cents/100⌋)·100` lies in [0, 100) and is
returned separately for pitch-bend, and the note always lies in [60, 72]. -/
theorem C4_amended (cents : ℚ) :
    (cents_to_midi_note cents).1 =
      60 + MAJOR_SCALE.getD ((⌊cents / 100⌋ % 8).toNat) 0 ∧
    0 ≤ (cents_to_midi_note cents).2 ∧ (cents_to_midi_note cents).2 < 100 ∧
    60 ≤ (cents_to_midi_note cents).1 ∧ (cents_to_midi_note cents).1 ≤ 72 := by
  have hfr0 : (0 : ℚ) ≤ cents / 100 - (⌊cents / 100⌋ : ℚ) := by
    have := Int.floor_le (cents / 100)
    linarith
  have hfr1 : cents / 100 - (⌊cents / 100⌋ : ℚ) < 1 := by
    have := Int.lt_floor_add_one (cents / 100)
    linarith
  have hidx : (⌊cents / 100⌋ % 8).toNat < 8 := by
    have h8 : (0 : ℤ) < 8 := by decide
    have hlt := Int.emod_lt_of_pos (⌊cents / 100⌋) h8
    have hge := Int.emod_nonneg (⌊cents / 100⌋) (by decide : (8 : ℤ) ≠ 0)
    omega
  have hval : 0 ≤ MAJOR_SCALE.getD ((⌊cents / 100⌋ % 8).toNat) 0 ∧
      MAJOR_SCALE.getD ((⌊cents / 100⌋ % 8).toNat) 0 ≤ 12 := by
    set i := (⌊cents / 100⌋ % 8).toNat with hi
    interval_cases i <;> simp [MAJOR_SCALE]
  refine ⟨rfl, ?_, ?_, ?_, ?_⟩
  · show 0 ≤ (cents / 100 - (⌊cents / 100⌋ : ℚ)) * 100
    nlinarith
  · show (cents / 100 - (⌊cents / 100⌋ : ℚ)) * 100 < 100
    nlinarith
  · show 60 ≤ 60 + MAJOR_SCALE.getD ((⌊cents / 100⌋ % 8).toNat) 0
    omega
  · show 60 + MAJOR_SCALE.getD ((⌊cents / 100⌋ % 8).toNat) 0 ≤ 72
    omega

/-- Helper: at cents 0 the computed note is 60. -/
theorem cents_zero_note : (cents_to_midi_note 0).1 = 60 := by
  unfold cents_to_midi_note
  norm_num [MAJOR_SCALE]

/-- Helper: at cents 0 the remainder is 0. -/
theorem cents_zero_rem : (cents_to_midi_note 0).2 = 0 := by
  unfold cents_to_midi_note
  norm_num

/-- Helper: zero remaining cents map to the pitch-bend centre 8192. -/
theorem pitch_bend_zero : cents_to_pitch_bend 0 = 8192 := by
  unfold cents_to_pitch_bend pyInt
  norm_num

/-- Helper: a zero volume always yields computed velocity 0. -/
theorem computed_velocity_zero (s : ControllerState)
    (h : s.current_volume = 0) : computed_velocity s = 0 := by
  unfold computed_velocity pyInt
  rw [h]
  norm_num

/-- Helper: when unpowered, `send_midi_messages` does nothing (lines 60-61). -/
theorem send_unpowered (s : ControllerState) (h : s.powered = false) :
    send_midi_messages s = ([], s) := by
  simp [send_midi_messages, h]

/-- Helper: `send_midi_messages` never writes `current_volume`,
`current_cents`, `powered` or `midi_channel`. -/
theorem send_fields (s : ControllerState) :
    (send_midi_messages s).2.current_volume = s.current_volume ∧
    (send_midi_messages s).2.current_cents = s.current_cents ∧
    (send_midi_messages s).2.powered = s.powered ∧
    (send_midi_messages s).2.midi_channel = s.midi_channel := by
  by_cases hp : s.powered = false
  · simp [send_midi_messages, hp]
  · by_cases hn : s.last_note = some (cents_to_midi_note s.current_cents).1
    · rcases h : s.last_vel_note with _ | lvn
      · simp [send_midi_messages, hp, hn, h]
      · by_cases hd : 31 ≤ (lvn - computed_velocity s).natAbs
        · simp [send_midi_messages, hp, hn, h, hd]
        · simp [send_midi_messages, hp, hn, h, hd]
    · simp [send_midi_messages, hp, hn]

/-- Helper: when powered, `send_midi_messages` always stores the computed
note and velocity into `last_note` / `last_vel_note` (lines 84-85, 95-96,
98-99). -/
theorem send_powered_state (s : ControllerState) (hp : s.powered = true) :
    (send_midi_messages s).2.last_note =
      some (cents_to_midi_note s.current_cents).1 ∧
    (send_midi_messages s).2.last_vel_note = some (computed_velocity s) := by
  have hp2 : ¬ (s.powered = false) := by simp [hp]
  by_cases hn : s.last_note = some (cents_to_midi_note s.current_cents).1
  · rcases h : s.last_vel_note with _ | lvn
    · simp [send_midi_messages, hp2, hn, h]
    · by_cases hd : 31 ≤ (lvn - computed_velocity s).natAbs
      · simp [send_midi_messages, hp2, hn, h, hd]
      · simp [send_midi_messages, hp2, hn, h, hd]
  · simp [send_midi_messages, hp2, hn]

/-- Helper: in every message list that `send_midi_messages` emits, each
NoteOff is immediately followed by a NoteOn. -/
theorem send_offs_followed (s : ControllerState) :
    offsFollowedByOn (send_midi_messages s).1 = true := by
  by_cases hp : s.powered = false
  · simp [send_midi_messages, hp, offsFollowedByOn]
  · by_cases hn : s.last_note = some (cents_to_midi_note s.current_cents).1
    · rcases h : s.last_vel_note with _ | lvn
      · simp [send_midi_messages, hp, hn, h, offsFollowedByOn]
      · by_cases hd : 31 ≤ (lvn - computed_velocity s).natAbs
        · simp [send_midi_messages, hp, hn, h, hd, offsFollowedByOn]
        · simp [send_midi_messages, hp, hn, h, hd, offsFollowedByOn]
    · rcases hln : s.last_note with _ | prev
      · simp [send_midi_messages, hp, hln, offsFollowedByOn]
      · rw [hln] at hn
        simp [send_midi_messages, hp, hln, hn, offsFollowedByOn]

/-- Helper: every NoteOn emitted by `send_midi_messages` carries the computed
velocity of line 66. -/
theorem send_noteOn_velocity (s : ControllerState) (c n w : ℤ)
    (h : MidiEvent.noteOn c n w ∈ (send_midi_messages s).1) :
    w = computed_velocity s := by
  by_cases hp : s.powered = false
  · rw [send_unpowered s hp] at h
    simp at h
  · by_cases hn : s.last_note = some (cents_to_midi_note s.current_cents).1
    · rcases hv : s.last_vel_note with _ | lvn
      · simp [send_midi_messages, hp, hn, hv] at h
      · by_cases hd : 31 ≤ (lvn - computed_velocity s).natAbs
        · simp [send_midi_messages, hp, hn, hv, hd] at h
          exact h.2.2
        · simp [send_midi_messages, hp, hn, hv, hd] at h
    · rcases hln : s.last_note with _ | prev
      · simp [send_midi_messages, hp, hln] at h
        exact h.2.2
      · rw [hln] at hn
        simp [send_midi_messages, hp, hln, hn] at h
        exact h.2.2

/-- Helper: once `last_note` is set, `send_midi_messages` never clears it. -/
theorem send_last_note_ne_none (s : ControllerState)
    (h : s.last_note ≠ none) : (send_midi_messages s).2.last_note ≠ none := by
  by_cases hp : s.powered = false
  · rw [send_unpowered s hp]
    exact h
  · have hp1 : s.powered = true := by
      revert hp
      cases s.powered <;> simp
    rw [(send_powered_state s hp1).1]
    simp

/-- Claim C1 (counterexample): in the sounding state `c1State` whose volume 0
lies below any positive dead-zone threshold, the claim requires a transition
to Silent with exactly one NoteOff; the code keeps the state Sounding
(`last_note` stays set) and emits no NoteOff at all — the source contains no
dead-zone check. -/
theorem C1_counterexample :
    (send_midi_messages c1State).2.last_note ≠ none ∧
    List.countP MidiEvent.isNoteOff (send_midi_messages c1State).1 = 0 := by
  have hn : c1State.last_note = some (cents_to_midi_note c1State.current_cents).1 := by
    show some 60 = some (cents_to_midi_note c1State.current_cents).1
    rw [show c1State.current_cents = (0 : ℚ) from rfl, cents_zero_note]
  have hvel : computed_velocity c1State = 0 := computed_velocity_zero c1State rfl
  have hev : (send_midi_messages c1State).1 =
      [MidiEvent.pitchBend (c1State.midi_channel + 1)
        (cents_to_pitch_bend (cents_to_midi_note c1State.current_cents).2)] := by
    simp [send_midi_messages, show ¬ (c1State.powered = false) by decide, hn,
      show c1State.last_vel_note = some 0 from rfl, hvel]
  constructor
  · rw [(send_powered_state c1State rfl).1]
    simp
  · rw [hev]
    simp [MidiEvent.isNoteOff]

/-- Claim C1 (amended): the code implements no dead-zone; for every powered
state with volume 0 (below any dead-zone threshold) the Event Gate never
transitions to Silent — `last_note` is set to the computed note — and when
the held note equals the computed note and the stored velocity is within the
hysteresis band, the only message emitted is the ungated pitch-bend, in
particular no NoteOff. -/
theorem C1_amended (s : ControllerState)
    (hp : s.powered = true) (hv : s.current_volume = 0) :
    (send_midi_messages s).2.last_note =
      some (cents_to_midi_note s.current_cents).1 ∧
    ∀ w : ℤ, s.last_note = some (cents_to_midi_note s.current_cents).1 →
      s.last_vel_note = some w → w.natAbs < 31 →
      (send_midi_messages s).1 =
        [MidiEvent.pitchBend (s.midi_channel + 1)
          (cents_to_pitch_bend (cents_to_midi_note s.current_cents).2)] := by
  refine ⟨(send_powered_state s hp).1, ?_⟩
  intro w hn hw hsmall
  have hp2 : ¬ (s.powered = false) := by simp [hp]
  have hvel := computed_velocity_zero s hv
  have hd : ¬ (31 ≤ (w - computed_velocity s).natAbs) := by
    rw [hvel]
    omega
  simp [send_midi_messages, hp2, hn, hw, hd]

/-- Claim C1 (witness): the amended statement instantiated at the concrete
sounding state `c1State`. -/
theorem C1_witness :
    c1State.powered = true ∧ c1State.current_volume = 0 ∧
    (send_midi_messages c1State).2.last_note =
      some (cents_to_midi_note c1State.current_cents).1 ∧
    (send_midi_messages c1State).1 =
      [MidiEvent.pitchBend (c1State.midi_channel + 1)
        (cents_to_pitch_bend (cents_to_midi_note c1State.current_cents).2)] := by
  have h := C1_amended c1State rfl rfl
  refine ⟨rfl, rfl, h.1, ?_⟩
  refine h.2 0 ?_ rfl (by decide)
  show some 60 = some (cents_to_midi_note c1State.current_cents).1
  rw [show c1State.current_cents = (0 : ℚ) from rfl, cents_zero_note]

/-- Claim C5: while Sounding(n, v), a candidate with the same note n and a
computed velocity differing from v by at least the hysteresis threshold 31
makes the gate emit NoteOff(n) then NoteOn(n, v2) — a full re-trigger,
preceded by the ungated pitch-bend — and store the new velocity
(lines 86-96). -/
theorem C5_retrigger (s : ControllerState) (n v : ℤ)
    (hp : s.powered = true) (hn : s.last_note = some n)
    (hv : s.last_vel_note = some v)
    (hsame : (cents_to_midi_note s.current_cents).1 = n)
    (hdelta : 31 ≤ (v - computed_velocity s).natAbs) :
    (send_midi_messages s).1 =
      [MidiEvent.pitchBend (s.midi_channel + 1)
        (cents_to_pitch_bend (cents_to_midi_note s.current_cents).2),
       MidiEvent.noteOff (s.midi_channel + 1) n,
       MidiEvent.noteOn (s.midi_channel + 1) n (computed_velocity s)] ∧
    (send_midi_messages s).2.last_note = some n ∧
    (send_midi_messages s).2.last_vel_note = some (computed_velocity s) := by
  have hp2 : ¬ (s.powered = false) := by simp [hp]
  have hn2 : s.last_note = some (cents_to_midi_note s.current_cents).1 := by
    rw [hsame]
    exact hn
  refine ⟨?_, ?_, ?_⟩ <;>
    simp [send_midi_messages, hp2, hn2, hv, hdelta, hsame]

/-- Claim C5 (witness): the re-trigger at the concrete state `c5State`,
holding note 60 at velocity 100 while the new computed velocity is 0. -/
theorem C5_witness :
    (send_midi_messages c5State).1 =
      [MidiEvent.pitchBend 1 8192, MidiEvent.noteOff 1 60,
        MidiEvent.noteOn 1 60 0] ∧
    (send_midi_messages c5State).2.last_note = some 60 ∧
    (send_midi_messages c5State).2.last_vel_note = some 0 := by
  have hvel : computed_velocity c5State = 0 := computed_velocity_zero c5State rfl
  have hsame : (cents_to_midi_note c5State.current_cents).1 = 60 := by
    rw [show c5State.current_cents = (0 : ℚ) from rfl]
    exact cents_zero_note
  have hdelta : 31 ≤ ((100 : ℤ) - computed_velocity c5State).natAbs := by
    rw [hvel]
    decide
  obtain ⟨h1, h2, h3⟩ := C5_retrigger c5State 60 100 rfl rfl rfl hsame hdelta
  have hpb : cents_to_pitch_bend (cents_to_midi_note c5State.current_cents).2 = 8192 := by
    rw [show c5State.current_cents = (0 : ℚ) from rfl, cents_zero_rem]
    exact pitch_bend_zero
  refine ⟨?_, h2, ?_⟩
  · rw [h1, hpb, hvel]
    norm_num [show c5State.midi_channel = (0 : ℤ) from rfl]
  · rw [h3, hvel]

/-- Claim C6: processing the identical parsed candidate `(m, v)` a second
time emits no events on the second call — after the first call the
`last_valid_*` locals hold the clamped pair, so `should_send` is false
(note unchanged, velocity delta 0 below the threshold 5). -/
theorem C6_idempotent (fs : LoopState) (m v : ℤ) :
    (loop_step (loop_step fs m v).2 m v).1 = [] := by
  set s2 := (loop_step fs m v).2 with hs2
  by_cases h : shouldSend fs (max 0 (min 127 m)) (max 0 (min 127 v)) = true
  · have hmid : s2.last_valid_midi = some (max 0 (min 127 m)) := by
      rw [hs2]
      simp [loop_step, h]
    have hvel : s2.last_valid_velocity = some (max 0 (min 127 v)) := by
      rw [hs2]
      simp [loop_step, h]
    have h2 : shouldSend s2 (max 0 (min 127 m)) (max 0 (min 127 v)) = false := by
      unfold shouldSend
      rw [hmid, hvel]
      simp [VELOCITY_THRESHOLD]
    simp [loop_step, h2]
  · have hb : shouldSend fs (max 0 (min 127 m)) (max 0 (min 127 v)) = false := by
      simpa using h
    have hfs : s2 = fs := by
      rw [hs2]
      simp [loop_step, hb]
    rw [hfs]
    simp [loop_step, hb]

/-- Claim C7 (spec-modelled `power_off`): invoking power-off while
Sounding(n, v) emits NoteOff(n) exactly once, clears the state to Silent and
powers the session down; afterwards `send_midi_messages` is a no-op and the
loop emits nothing and stays powered off on every subsequent sample. -/
theorem C7_power_off (s : ControllerState) (n : ℤ) (h : s.last_note = some n) :
    (power_off s).1 = [MidiEvent.noteOff (s.midi_channel + 1) n] ∧
    (power_off s).2.powered = false ∧
    (power_off s).2.last_note = none ∧
    (∀ s2 : ControllerState, s2.powered = false → send_midi_messages s2 = ([], s2)) ∧
    (∀ fs : LoopState, ∀ m w : ℤ, fs.ctrl.powered = false →
      (loop_step fs m w).1 = [] ∧ (loop_step fs m w).2.ctrl.powered = false) := by
  refine ⟨by simp [power_off, h], by simp [power_off, h], by simp [power_off, h],
    fun s2 h2 => send_unpowered s2 h2, ?_⟩
  intro fs m w hoff
  by_cases hb : shouldSend fs (max 0 (min 127 m)) (max 0 (min 127 w)) = true
  · have hc : (updatedCtrl fs (max 0 (min 127 m)) (max 0 (min 127 w))).powered = false := hoff
    constructor
    · simp [loop_step, hb, send_unpowered _ hc]
    · simp [loop_step, hb, send_unpowered _ hc]
      exact hc
  · have hb2 : shouldSend fs (max 0 (min 127 m)) (max 0 (min 127 w)) = false := by
      simpa using hb
    constructor
    · simp [loop_step, hb2]
    · simp [loop_step, hb2, hoff]

/-- Claim C7 (witness): power-off at the concrete sounding state `c7State`
(note 60, velocity 90) and a subsequent sample at the powered-off state. -/
theorem C7_witness :
    (power_off c7State).1 = [MidiEvent.noteOff (c7State.midi_channel + 1) 60] ∧
    (power_off c7State).2.powered = false ∧
    (power_off c7State).2.last_note = none ∧
    (loop_step offLoopState 60 90).1 = [] ∧
    (loop_step offLoopState 60 90).2.ctrl.powered = false := by
  obtain ⟨h1, h2, h3, _, h5⟩ := C7_power_off c7State 60 rfl
  exact ⟨h1, h2, h3, (h5 offLoopState 60 90 rfl).1, (h5 offLoopState 60 90 rfl).2⟩

/-- Helper: concrete evaluation of `send_midi_messages` on the controller
state reached by the first sample of a fresh session: the NoteOn carries
velocity 0 because `current_volume` is still 0. -/
theorem send_c9Ctrl : (send_midi_messages c9Ctrl).1 =
    [MidiEvent.pitchBend 1 8192, MidiEvent.noteOn 1 60 0] := by
  have hnote : (cents_to_midi_note c9Ctrl.current_cents).1 = 60 := by
    rw [show c9Ctrl.current_cents = (0 : ℚ) from rfl]
    exact cents_zero_note
  have hrem : (cents_to_midi_note c9Ctrl.current_cents).2 = 0 := by
    rw [show c9Ctrl.current_cents = (0 : ℚ) from rfl]
    exact cents_zero_rem
  have hvel : computed_velocity c9Ctrl = 0 := computed_velocity_zero c9Ctrl rfl
  simp [send_midi_messages, show ¬ (c9Ctrl.powered = false) by decide,
    show c9Ctrl.last_note = none from rfl, hnote, hrem, hvel, pitch_bend_zero,
    show c9Ctrl.midi_channel = (0 : ℤ) from rfl]

/-- Claim C9: `current_volume` is 0 after `__init__` and is never written by
the processing loop (which assigns `current_velocity` instead, line 163), so
it stays 0 across every loop iteration and every NoteOn the loop emits
carries velocity `int(max(0, min(127, 0 * 127))) = 0`, whatever velocity was
parsed from the sample. -/
theorem C9_volume_stuck :
    (∀ mc : ℤ, (initController mc).current_volume = 0) ∧
    ∀ fs : LoopState, ∀ m v : ℤ, fs.ctrl.current_volume = 0 →
      (loop_step fs m v).2.ctrl.current_volume = 0 ∧
      ∀ c n w : ℤ, MidiEvent.noteOn c n w ∈ (loop_step fs m v).1 → w = 0 := by
  refine ⟨fun mc => rfl, ?_⟩
  intro fs m v h0
  have hc : (updatedCtrl fs (max 0 (min 127 m)) (max 0 (min 127 v))).current_volume = 0 := h0
  by_cases hb : shouldSend fs (max 0 (min 127 m)) (max 0 (min 127 v)) = true
  · constructor
    · have hfld := (send_fields (updatedCtrl fs (max 0 (min 127 m)) (max 0 (min 127 v)))).1
      simp [loop_step, hb, hfld]
      exact hc
    · intro c n w hw
      have hmem : MidiEvent.noteOn c n w ∈
          (send_midi_messages (updatedCtrl fs (max 0 (min 127 m)) (max 0 (min 127 v)))).1 := by
        simpa [loop_step, hb] using hw
      rw [send_noteOn_velocity _ c n w hmem, computed_velocity_zero _ hc]
  · have hb2 : shouldSend fs (max 0 (min 127 m)) (max 0 (min 127 v)) = false := by
      simpa using hb
    constructor
    · simp [loop_step, hb2]
      exact h0
    · intro c n w hw
      simp [loop_step, hb2] at hw

/-- Claim C9 (witness): a fresh session processes the sample `(60, 90)`; the
volume stays 0, the emitted NoteOn is present and its velocity — pinned to 0
by the theorem — is 0 despite the parsed velocity 90. -/
theorem C9_witness :
    (initController 0).current_volume = 0 ∧
    (loop_step initLoopState 60 90).2.ctrl.current_volume = 0 ∧
    MidiEvent.noteOn 1 60 0 ∈ (loop_step initLoopState 60 90).1 ∧ (0 : ℤ) = 0 := by
  have h2 := C9_volume_stuck.2 initLoopState 60 90 rfl
  have hb : shouldSend initLoopState (max 0 (min 127 (60 : ℤ))) (max 0 (min 127 (90 : ℤ))) = true := by
    decide
  have hev : (loop_step initLoopState 60 90).1 = (send_midi_messages c9Ctrl).1 := by
    simp only [loop_step, hb, if_true]
    rfl
  have hmem : MidiEvent.noteOn 1 60 0 ∈ (loop_step initLoopState 60 90).1 := by
    rw [hev, send_c9Ctrl]
    simp
  exact ⟨C9_volume_stuck.1 0, h2.1, hmem, h2.2 1 60 0 hmem⟩

/-- Claim C10: whenever `send_midi_messages` runs on a powered state it ends
with `last_note` set to the freshly computed note (never `None`, lines 84,
95, 98), every NoteOff it emits is immediately followed by a NoteOn, and the
processing loop never clears a once-set `last_note`: sample processing alone
cannot return the engine to Silent. -/
theorem C10_always_sounding :
    (∀ s : ControllerState, s.powered = true →
      (send_midi_messages s).2.last_note =
        some (cents_to_midi_note s.current_cents).1 ∧
      offsFollowedByOn (send_midi_messages s).1 = true) ∧
    ∀ fs : LoopState, ∀ m v : ℤ, fs.ctrl.last_note ≠ none →
      (loop_step fs m v).2.ctrl.last_note ≠ none := by
  refine ⟨fun s hp => ⟨(send_powered_state s hp).1, send_offs_followed s⟩, ?_⟩
  intro fs m v hne
  by_cases hb : shouldSend fs (max 0 (min 127 m)) (max 0 (min 127 v)) = true
  · have hne2 : (updatedCtrl fs (max 0 (min 127 m)) (max 0 (min 127 v))).last_note ≠ none := hne
    have := send_last_note_ne_none _ hne2
    simp [loop_step, hb]
    exact this
  · have hb2 : shouldSend fs (max 0 (min 127 m)) (max 0 (min 127 v)) = false := by
      simpa using hb
    simp [loop_step, hb2]
    exact hne

/-- Claim C10 (witness): the first powered call stores the computed note, its
message list has every NoteOff followed by a NoteOn, and a loop iteration on
a sounding state keeps `last_note` set. -/
theorem C10_witness :
    (send_midi_messages (initController 0)).2.last_note =
      some (cents_to_midi_note (initController 0).current_cents).1 ∧
    offsFollowedByOn (send_midi_messages (initController 0)).1 = true ∧
    (loop_step c10LoopState 60 90).2.ctrl.last_note ≠ none := by
  obtain ⟨h1, h2⟩ := C10_always_sounding
  obtain ⟨ha, hb⟩ := h1 (initController 0) rfl
  exact ⟨ha, hb, h2 c10LoopState 60 90 (by decide)⟩

/-- Claim C8 (counterexample): the line `42` cleans to a single token; the
claim requires a MalformedSample diagnostic for it, yet the code skips the
token-count branch without any diagnostic — no report, no event, no state
change. -/
theorem C8_counterexample :
    (tokensOf (cleanLine "42")).length < 2 ∧
    loop_line initLoopState "42" = StepResult.cont false [] initLoopState := by
  refine ⟨by decide, ?_⟩
  have h : process_line "42" = LineOutcome.noSample := by rfl
  simp [loop_line, h]

/-- Claim C8 (amended): a line that cleans to fewer than two tokens is
dropped silently — no diagnostic, no event, unchanged state, and the loop
continues; a line of at least two tokens whose numeric parsing raises
ValueError is reported by the diagnostic of line 176, dropped, and the loop
continues with unchanged state.  (A token parsing to an infinity instead
raises OverflowError from `int()`, which no handler catches.) -/
theorem C8_amended (raw : String) (s : LoopState) :
    ((tokensOf (cleanLine raw)).length < 2 →
      loop_line s raw = StepResult.cont false [] s) ∧
    (process_line raw = LineOutcome.parseError →
      loop_line s raw = StepResult.cont true [] s) := by
  constructor
  · intro h
    have h2 : ¬ (2 ≤ (tokensOf (cleanLine raw)).length) := by omega
    have hp : process_line raw = LineOutcome.noSample := by
      unfold process_line
      simp [h2]
    simp [loop_line, hp]
  · intro h
    simp [loop_line, h]

/-- Claim C8 (witness): the amended statement at the token-short line `42`
and at the unparsable line `abc def`. -/
theorem C8_witness :
    (tokensOf (cleanLine "42")).length < 2 ∧
    loop_line initLoopState "42" = StepResult.cont false [] initLoopState ∧
    process_line "abc def" = LineOutcome.parseError ∧
    loop_line initLoopState "abc def" = StepResult.cont true [] initLoopState := by
  have h1 : (tokensOf (cleanLine "42")).length < 2 := by decide
  have h3 : process_line "abc def" = LineOutcome.parseError := by rfl
  exact ⟨h1, (C8_amended "42" initLoopState).1 h1,
    h3, (C8_amended "abc def" initLoopState).2 h3⟩
